import Mathlib

/-!
Verification development for the DCF valuation engine.

The Python sources (`src/modeling/dcf.py`, `src/main.py`) are shallowly
embedded here: Python floats become `ℚ`, dictionary / list index accesses
that can raise become `Option`, and the in-place mutation of the argparse
namespace in `main.run_setup` becomes explicit state passing (the final
state is returned so that the frame effect is observable).  Statement
records fetched from the market-data API are modelled as structures whose
fields are `Option ℚ` (a `none` field is a key that is absent from the
JSON record, so that reading it raises `KeyError`).

Conventions used throughout:
* arithmetic is exact rational arithmetic (`ℚ`);
* a Python exception escaping the modelled function is `Option.none`;
* the interactive `input()` prompt for a missing EBIT inside
  `enterprise_value` is modelled as a failure, following the design note
  of the specification that abstracts the prompt to a `MissingField`
  failure decided by the caller.
-/

/-- Fallback configuration object of `src/modeling/dcf.py` (`class DCFConfig`,
used whenever `config_manager` is unavailable; it is the configuration in
scope for this snapshot of the repository). -/
structure DCFConfig where
  default_discount_rate : ℚ
  working_capital_decay_rate : ℚ
  risk_free_rate : ℚ
  market_premium : ℚ
  default_earnings_growth_rate : ℚ
  default_capex_growth_rate : ℚ
  max_terminal_growth_rate : ℚ
  min_terminal_growth_rate : ℚ
  tax_rate_floor : ℚ
  tax_rate_ceiling : ℚ
  beta_defaults : List (String × ℚ)
deriving Repr

/-- The concrete fallback values from `src/modeling/dcf.py` lines 31-43. -/
def DCF_CONFIG : DCFConfig :=
  { default_discount_rate := 10/100
    working_capital_decay_rate := 7/10
    risk_free_rate := 4/100
    market_premium := 6/100
    default_earnings_growth_rate := 5/100
    default_capex_growth_rate := 45/1000
    max_terminal_growth_rate := 4/100
    min_terminal_growth_rate := 2/100
    tax_rate_floor := 15/100
    tax_rate_ceiling := 35/100
    beta_defaults := [("default", 1)] }

/-- One income-statement record (the fields of the FMP JSON record that
`enterprise_value` reads).  `none` = key absent from the record. -/
structure IncomeRecord where
  date : String
  operatingIncome : Option ℚ
  EBIT : Option ℚ
  incomeTaxExpense : Option ℚ
  incomeBeforeTax : Option ℚ
deriving DecidableEq, Repr

/-- One balance-sheet record. -/
structure BalanceRecord where
  totalAssets : Option ℚ
  totalNonCurrentAssets : Option ℚ
deriving DecidableEq, Repr

/-- One cash-flow-statement record. -/
structure CashflowRecord where
  depreciationAndAmortization : Option ℚ
  capitalExpenditure : Option ℚ
deriving DecidableEq, Repr

/-- One enterprise-value record.  A Python dict may carry the FMP API keys
(`addTotalDebt`, ...) or the original-format keys (`"+ Total Debt"`, ...,
here the `legacy` fields); `equity_value` reads one key set or the other
depending on the shape of its argument. -/
structure EVRecord where
  addTotalDebt : Option ℚ
  minusCashAndCashEquivalents : Option ℚ
  numberOfShares : Option ℚ
  legacyTotalDebt : Option ℚ
  legacyCash : Option ℚ
  legacyShares : Option ℚ
deriving DecidableEq, Repr

/-- The `enterprise_value_statement` argument of `equity_value`: either the
FMP list format (the `isinstance(..., list)` branch) or a single record
(the original dict format branch, which is what `historical_DCF` passes). -/
inductive EVStatement where
  | fmpList (l : List EVRecord) : EVStatement
  | single (r : EVRecord) : EVStatement
deriving DecidableEq, Repr

/-- The `variable_growth_rates` argument of `DCF`/`enterprise_value`:
`None`, a year -> rate dict (association list), or a rate list. -/
inductive GrowthOverride where
  | none : GrowthOverride
  | dict (m : List (Int × ℚ)) : GrowthOverride
  | list (l : List ℚ) : GrowthOverride
deriving DecidableEq, Repr

/-- Python truthiness of `record.get(key)` for a numeric field: the key is
present and its value is nonzero. -/
def truthy : Option ℚ → Bool
  | some v => v != 0
  | Option.none => false

/-- `ulFCF` from `src/modeling/dcf.py` lines 181-195: unlevered free cash
flow to the firm. -/
def ulFCF (ebit tax_rate non_cash_charges cwc cap_ex : ℚ) : ℚ :=
  ebit * (1 - tax_rate) + non_cash_charges + cwc + cap_ex

/-- The per-forecast-year quantities `enterprise_value` carries from one
loop iteration to the next (lines 396-414). -/
structure FlowState where
  ebit : ℚ
  non_cash_charges : ℚ
  cwc : ℚ
  cap_ex : ℚ
deriving DecidableEq, Repr

/-- One iteration of the forecast loop of `enterprise_value` (lines
401-414): EBIT and D&A compound by the growth rate of the year, capex by the
capex growth rate of the year, and the working-capital change decays by the
configured decay rate.  The `yr == 1` branch of the source multiplies the saved
base values, which at that point equal the current values, so a single
uniform recurrence is faithful. -/
def stepFlow (year_growth_rate year_capex_growth_rate : ℚ) (s : FlowState) : FlowState :=
  { ebit := s.ebit * (1 + year_growth_rate)
    non_cash_charges := s.non_cash_charges * (1 + year_growth_rate)
    cwc := s.cwc * DCF_CONFIG.working_capital_decay_rate
    cap_ex := s.cap_ex * (1 + year_capex_growth_rate) }

/-- The sequence of per-year states produced by the forecast loop of
`enterprise_value`, one entry per forecast year, driven by the zipped
(earnings, capex) growth-rate schedules. -/
def forecastTrajectory (s : FlowState) : List (ℚ × ℚ) → List FlowState
  | [] => []
  | (g, gc) :: rest =>
      let s1 := stepFlow g gc s
      s1 :: forecastTrajectory s1 rest

/-- Present value of the unlevered free cash flow
(lines 417-418): `ulFCF(...) / (1 + discount) ** yr`. -/
def pvFlow (tax_rate discount : ℚ) (yr : Nat) (s : FlowState) : ℚ :=
  ulFCF s.ebit tax_rate s.non_cash_charges s.cwc s.cap_ex / (1 + discount) ^ yr

/-- Resolution of a year -> rate dict override (lines 359-368): for each
forecast year `base_year + i + 1` take `variable_growth_rates.get(year,
earnings_growth_rate)`.  If the dict misses the year and
`earnings_growth_rate` is `None`, the Python loop stores `None` and the
later arithmetic raises; that failure is `Option.none` here.  The source
appends the same rate to both the earnings and the capex schedule, so one
list is produced and used for both. -/
def dictRates (m : List (Int × ℚ)) (fallback : Option ℚ) : List Int → Option (List ℚ)
  | [] => some []
  | y :: ys => do
      let g ← (m.lookup y).orElse (fun _ => fallback)
      let rest ← dictRates m fallback ys
      pure (g :: rest)

/-- The growth-rate preparation block of `enterprise_value` (lines
349-377), producing the pair (earnings schedule, capex schedule). -/
def prepare_growth_rates (base_year : Int) (period : Nat)
    (earnings_growth_rate cap_ex_growth_rate : Option ℚ)
    (variable_growth_rates : GrowthOverride) : Option (List ℚ × List ℚ) :=
  match variable_growth_rates with
  | .none =>
      let egr := earnings_growth_rate.getD DCF_CONFIG.default_earnings_growth_rate
      let cgr := cap_ex_growth_rate.getD DCF_CONFIG.default_capex_growth_rate
      some (List.replicate period egr, List.replicate period cgr)
  | .dict m =>
      (dictRates m earnings_growth_rate
        ((List.range period).map (fun i : Nat => base_year + (i : Int) + 1))).map (fun g => (g, g))
  | .list l =>
      if l.length < period then
        match earnings_growth_rate with
        | some egr =>
            let g := (l ++ List.replicate (period - l.length) egr).take period
            some (g, g)
        | Option.none => Option.none
      else
        let g := l.take period
        some (g, g)

/-- Accumulating decimal-digit parse: `none` as soon as a non-digit
appears (Python `int(...)` raises `ValueError`). -/
def digitsToNat (acc : Nat) : List Char → Option Nat
  | [] => some acc
  | c :: cs =>
      if c.isDigit then digitsToNat (acc * 10 + (c.toNat - 48)) cs else Option.none

/-- Python `int(s)` for the shapes a sliced statement date can take: an
optional leading minus sign followed by decimal digits; anything else
(empty string, stray separator) raises, i.e. `none`.  (The whitespace and
underscore tolerance of the real `int(...)` is irrelevant for 4-character
date prefixes.) -/
def parsePythonInt (s : String) : Option Int :=
  match s.data with
  | [] => Option.none
  | c :: cs =>
      if c = '-' then
        match cs with
        | [] => Option.none
        | _ => (digitsToNat 0 cs).map (fun n => -(n : Int))
      else (digitsToNat 0 (c :: cs)).map (fun n => (n : Int))

/-- The EBIT selection of `enterprise_value` (lines 325-334): operating
income if present and truthy, else the explicit `EBIT` field, else the
interactive prompt — modelled as a failure (specification design note:
the prompt is abstracted to a `MissingField` failure). -/
def selectEBIT (inc0 : IncomeRecord) : Option ℚ :=
  if truthy inc0.operatingIncome then inc0.operatingIncome
  else if truthy inc0.EBIT then inc0.EBIT
  else Option.none

/-- Change in net working capital (lines 339-345): the difference of
(total assets - total non-current assets) between the two most recent
balance-sheet periods.  Fails when fewer than two periods are available
(`IndexError`) or a field is missing (`KeyError`). -/
def cwcOf (balance_statement : List BalanceRecord) : Option ℚ := do
  let bal0 ← balance_statement.head?
  let bal1 ← balance_statement[1]?
  let ta0 ← bal0.totalAssets
  let tnca0 ← bal0.totalNonCurrentAssets
  let ta1 ← bal1.totalAssets
  let tnca1 ← bal1.totalNonCurrentAssets
  pure ((ta0 - tnca0) - (ta1 - tnca1))

/-- The baseline-extraction block of `enterprise_value` (lines 324-346,
plus the date parse of line 361/421): the base-year `FlowState` (EBIT,
D&A, change in working capital, capex), the effective tax rate
`incomeTaxExpense / incomeBeforeTax` (`ZeroDivisionError` when pretax
income is zero), and the statement year `int(date[0:4])`. -/
def baseInputs (income_statement : List IncomeRecord)
    (cashflow_statement : List CashflowRecord)
    (balance_statement : List BalanceRecord) : Option (FlowState × ℚ × Int) := do
  let inc0 ← income_statement.head?
  let ebit ← selectEBIT inc0
  let taxExpense ← inc0.incomeTaxExpense
  let pretax ← inc0.incomeBeforeTax
  guard (pretax ≠ 0)
  let cf0 ← cashflow_statement.head?
  let non_cash_charges ← cf0.depreciationAndAmortization
  let cwc ← cwcOf balance_statement
  let cap_ex ← cf0.capitalExpenditure
  let base_year ← parsePythonInt (inc0.date.take 4)
  pure (⟨ebit, non_cash_charges, cwc, cap_ex⟩, taxExpense / pretax, base_year)

/-- `enterprise_value` from `src/modeling/dcf.py` lines 296-434.
`none` is any Python exception escaping the call (missing key, index out
of range, zero pretax income, unparsable date, zero division in the
discounting or in the terminal value).  Notes on faithfulness:
* line 421 parses `int(income_statement[0]["date"][0:4])` on every loop
  iteration, so the date parse is required whenever `period >= 1`; it is
  hoisted into `baseInputs`, which changes nothing observable because for
  `period = 0` the valuation always fails at `flows[-1]` anyway;
* `flows[-1]` on an empty flows list (period 0) is `List.getLast?`;
* `(1 + discount) ** yr` raises `ZeroDivisionError` during discounting
  when `discount = -1` and `period >= 1`: the guard below. -/
def enterprise_value (income_statement : List IncomeRecord)
    (cashflow_statement : List CashflowRecord)
    (balance_statement : List BalanceRecord)
    (period : Nat) (discount_rate : ℚ)
    (earnings_growth_rate cap_ex_growth_rate : Option ℚ)
    (perpetual_growth_rate : ℚ)
    (variable_growth_rates : GrowthOverride) : Option ℚ := do
  let bi ← baseInputs income_statement cashflow_statement balance_statement
  let rates ← prepare_growth_rates bi.2.2 period
      earnings_growth_rate cap_ex_growth_rate variable_growth_rates
  guard (1 + discount_rate ≠ 0)
  let flows := ((forecastTrajectory bi.1 (rates.1.zip rates.2)).enum).map
      (fun p => pvFlow bi.2.1 discount_rate (p.1 + 1) p.2)
  let NPV_FCF := flows.sum
  let lastFlow ← flows.getLast?
  guard (discount_rate - perpetual_growth_rate ≠ 0)
  let final_cashflow := lastFlow * (1 + perpetual_growth_rate)
  let TV := final_cashflow / (discount_rate - perpetual_growth_rate)
  let NPV_TV := TV / (1 + discount_rate) ^ (1 + period)
  pure (NPV_TV + NPV_FCF)

/-- `equity_value` from `src/modeling/dcf.py` lines 265-293: the equity
bridge.  The list branch reads the FMP keys of the first record; the
single-record branch reads the original-format keys.  `none` is a missing
key or a zero share count (`ZeroDivisionError`). -/
def equity_value (ev : ℚ) (enterprise_value_statement : EVStatement) : Option (ℚ × ℚ) := do
  let dcs ←
    match enterprise_value_statement with
    | .fmpList l => do
        let r ← l.head?
        let debt ← r.addTotalDebt
        let cash ← r.minusCashAndCashEquivalents
        let shares ← r.numberOfShares
        pure (debt, cash, shares)
    | .single r => do
        let debt ← r.legacyTotalDebt
        let cash ← r.legacyCash
        let shares ← r.legacyShares
        pure (debt, cash, shares)
  guard (dcs.2.2 ≠ 0)
  let equity_val := ev - dcs.1 + dcs.2.1
  pure (equity_val, equity_val / dcs.2.2)

/-- The result dict of `DCF` (lines 106-111). -/
structure DCFResult where
  date : String
  enterprise_value : ℚ
  equity_value : ℚ
  share_price : ℚ
deriving DecidableEq, Repr

/-- `DCF` from `src/modeling/dcf.py` lines 51-111.  The `ticker` argument
is only interpolated into log lines and is dropped. -/
def DCF (ev_statement : EVStatement) (income_statement : List IncomeRecord)
    (balance_statement : List BalanceRecord)
    (cashflow_statement : List CashflowRecord)
    (discount_rate : ℚ) (forecast : Nat)
    (earnings_growth_rate cap_ex_growth_rate : Option ℚ)
    (perpetual_growth_rate : ℚ)
    (variable_growth_rates : GrowthOverride) : Option DCFResult := do
  let ev ← enterprise_value income_statement cashflow_statement balance_statement
      forecast discount_rate earnings_growth_rate cap_ex_growth_rate
      perpetual_growth_rate variable_growth_rates
  let eq_sp ← equity_value ev ev_statement
  let inc0 ← income_statement.head?
  pure ⟨inc0.date, ev, eq_sp.1, eq_sp.2⟩

/-- Python `dict[key] = value` on an association list: overwrite in place
if the key exists, otherwise append. -/
def assocSet {β : Type} (l : List (String × β)) (k : String) (v : β) : List (String × β) :=
  if l.any (fun p => p.1 == k) then l.map (fun p => if p.1 == k then (k, v) else p)
  else l ++ [(k, v)]

/-- The body of one iteration of the `historical_DCF` loop (lines
154-169): index into the enterprise-value list (an `IndexError` is raised
inside the `try`), slice two consecutive periods from each statement list,
and run `DCF` (with `variable_growth_rates` left at its default `None`).
`none` = the exception caught by the `except` clause of that window. -/
def windowResult (discount_rate : ℚ) (forecast : Nat)
    (earnings_growth_rate cap_ex_growth_rate : Option ℚ) (perpetual_growth_rate : ℚ)
    (incs : List IncomeRecord) (bals : List BalanceRecord)
    (cfs : List CashflowRecord) (evs : List EVRecord) (i : Nat) : Option DCFResult :=
  (evs[i]?).bind fun ev_rec =>
    DCF (EVStatement.single ev_rec) ((incs.drop i).take 2) ((bals.drop i).take 2)
      ((cfs.drop i).take 2) discount_rate forecast earnings_growth_rate
      cap_ex_growth_rate perpetual_growth_rate GrowthOverride.none

/-- `historical_DCF` from `src/modeling/dcf.py` lines 114-178.  The four
statement lists, fetched over the network in the source, are passed in
explicitly (the data layer is the external collaborator of the
specification); `ticker` is dropped with them.  The exception of each window is
caught and the window is skipped; a successful window is stored in the
result dict keyed by its statement date. -/
def historical_DCF (years forecast : Nat) (discount_rate : ℚ)
    (earnings_growth_rate cap_ex_growth_rate : Option ℚ) (perpetual_growth_rate : ℚ)
    (interval : String) (incs : List IncomeRecord) (bals : List BalanceRecord)
    (cfs : List CashflowRecord) (evs : List EVRecord) : List (String × DCFResult) :=
  let intervals := if interval = "quarter" then years * 4 else years
  (List.range intervals).foldl
    (fun dcfs i =>
      match windowResult discount_rate forecast earnings_growth_rate cap_ex_growth_rate
          perpetual_growth_rate incs bals cfs evs i with
      | Option.none => dcfs
      | some r => assocSet dcfs r.date r)
    []

/-- `npv(rate)` inside `calculate_irr` (lines 799-801):
`sum(cf / (1 + rate) ** i)` with `i` enumerating from 0. -/
def npv_at (cfs : List ℚ) (rate : ℚ) : ℚ :=
  (cfs.enum.map (fun p => p.2 / (1 + rate) ^ p.1)).sum

/-- `npv_derivative(rate)` inside `calculate_irr` (lines 803-805):
`sum(-i * cf / (1 + rate) ** (i + 1))`. -/
def npv_deriv_at (cfs : List ℚ) (rate : ℚ) : ℚ :=
  (cfs.enum.map (fun p => -(p.1 : ℚ) * p.2 / (1 + rate) ^ (p.1 + 1))).sum

/-- The Newton-Raphson iteration of `calculate_irr` (lines 807-834), fuel
= `max_iterations`.  Every `break` returns the rate current at that
point; the candidate is clamped to [-99%, 500%] before the step-size
test.  The `except (ZeroDivisionError, OverflowError)` clause is
unreachable over `ℚ`: the clamp keeps `1 + rate > 0` and the derivative
is only used after the `1e-12` magnitude test. -/
def newtonLoop (cfs : List ℚ) : Nat → ℚ → ℚ
  | 0, rate => rate
  | fuel + 1, rate =>
      let npv_value := npv_at cfs rate
      let npv_deriv := npv_deriv_at cfs rate
      if |npv_value| < 1 / 1000000 then rate
      else if |npv_deriv| < 1 / 1000000000000 then rate
      else
        let new_rate := max (-(99/100)) (min (rate - npv_value / npv_deriv) 5)
        if |new_rate - rate| < 1 / 1000000 then rate
        else newtonLoop cfs fuel new_rate

/-- `calculate_irr` from `src/modeling/dcf.py` lines 791-837.  Non-positive
initial investment returns 0 immediately; `cash_flows[-1]` on an empty
list raises (`none`); the final rate is returned when inside [-50%, 200%]
and otherwise the function returns 0 (the literal on line 837). -/
def calculate_irr (initial_investment : ℚ) (cash_flows : List ℚ)
    (terminal_value : ℚ) : Option ℚ :=
  if initial_investment ≤ 0 then some 0
  else do
    let lastCf ← cash_flows.getLast?
    let all_cash_flows := -initial_investment :: (cash_flows.dropLast ++ [lastCf + terminal_value])
    let rate := newtonLoop all_cash_flows 100 (1/10)
    pure (if -(1/2) ≤ rate ∧ rate ≤ 2 then rate else 0)

/-- Beta resolution of `get_discount_rate` (lines 218-229): the provided
equity beta, else the industry entry of the configured beta table (the
`default` entry of the beta table, else 1.0, when the industry is unknown), else
the market beta 1.0 when no truthy industry is given.  `hasattr(DCF_CONFIG,
"beta_defaults")` holds for the fallback configuration in scope. -/
def resolveBeta (equity_beta : Option ℚ) (industry : Option String) : ℚ :=
  match equity_beta with
  | some b => b
  | Option.none =>
    match industry with
    | some ind =>
        if ind = "" then 1
        else (DCF_CONFIG.beta_defaults.lookup ind).getD
          ((DCF_CONFIG.beta_defaults.lookup ("default")).getD 1)
    | Option.none => 1

/-- `get_discount_rate` from `src/modeling/dcf.py` lines 198-262: CAPM
cost of equity, returned directly when capital-structure data is absent,
else blended into a WACC with a leverage-spread cost of debt and a
clamped tax shield.  `none` is the `ZeroDivisionError` the source raises
at `equity_weight = 1 / total_value` (line 248) when
`debt_to_equity = -1` makes `total_value = 1 + debt_to_equity` zero. -/
def get_discount_rate (equity_beta : Option ℚ) (debt_to_equity : Option ℚ)
    (tax_rate : Option ℚ) (industry : Option String) : Option ℚ :=
  let risk_free_rate := DCF_CONFIG.risk_free_rate
  let market_premium := DCF_CONFIG.market_premium
  let beta := resolveBeta equity_beta industry
  let cost_of_equity := risk_free_rate + beta * market_premium
  match debt_to_equity, tax_rate with
  | some de, some t =>
      let debt_spread := min (5/100) (de * (2/100))
      let cost_of_debt := risk_free_rate + debt_spread
      let total_value := 1 + de
      if total_value = 0 then Option.none
      else
        let equity_weight := 1 / total_value
        let debt_weight := de / total_value
        let bounded_tax := max DCF_CONFIG.tax_rate_floor (min t DCF_CONFIG.tax_rate_ceiling)
        some (equity_weight * cost_of_equity + debt_weight * cost_of_debt * (1 - bounded_tax))
  | _, _ => some cost_of_equity

/-- The trend fields read by `_create_variable_growth_schedule` (lines
840-870).  `recent_revenue_growth` and `revenue_cagr` are accessed with
`trends[...]` (required); the two damping factors with `.get(..., 1.0)`
(optional). -/
structure Trends where
  recent_revenue_growth : ℚ
  revenue_cagr : ℚ
  maturity_factor : Option ℚ
  debt_constraint_factor : Option ℚ
deriving DecidableEq, Repr

/-- `_create_variable_growth_schedule` from `src/modeling/dcf.py` lines
840-870: blend recent growth into long-term CAGR over the first 3 years,
hold CAGR through the middle years, transition to the fixed 2.5% terminal
rate over the final 2 years, damp by the business-context factors, and
clamp to [-10%, +50%]. -/
def _create_variable_growth_schedule (trends : Trends) (forecast_years : Nat) : List ℚ :=
  (List.range forecast_years).map (fun i : Nat =>
    let recent_growth := trends.recent_revenue_growth
    let long_term_growth := trends.revenue_cagr
    let growth :=
      if i < 3 then
        let weight : ℚ := ((3 - i : Int) : ℚ) / 3
        recent_growth * weight + long_term_growth * (1 - weight)
      else if i < forecast_years - 2 then
        long_term_growth
      else
        let weight : ℚ := (((forecast_years : Int) - 1 - i : Int) : ℚ) / 2
        long_term_growth * weight + (25/1000) * (1 - weight)
    let damped := growth * trends.maturity_factor.getD 1 * trends.debt_constraint_factor.getD 1
    min (max damped (-(1/10))) (1/2))

/-- The argparse namespace of `src/main.py` (lines 209-228), with fields
named by their argparse destinations.  Numeric options are `ℚ`,
year/period counts `Nat`. -/
structure Args where
  p : Nat
  t : String
  y : Nat
  i : String
  s : ℚ
  steps : Nat
  v : String
  d : ℚ
  eg : ℚ
  cg : ℚ
  pg : ℚ
  apikey : String
deriving DecidableEq, Repr

/-- `vars(args)[variable]` (read): the fields `run_setup` can be asked to
sweep.  An unknown name (for example the string `discount` passed by
`main`, which is not an argparse destination) raises `KeyError`. -/
def getVar (a : Args) : String → Option ℚ
  | "eg" => some a.eg
  | "cg" => some a.cg
  | "pg" => some a.pg
  | "d" => some a.d
  | _ => Option.none

/-- `vars(args)[variable] = var` (write) for the swept fields; identity on
names `getVar` rejects (unreachable, since the read happens first). -/
def setVar (a : Args) (varname : String) (x : ℚ) : Args :=
  match varname with
  | "eg" => { a with eg := x }
  | "cg" => { a with cg := x }
  | "pg" => { a with pg := x }
  | "d" => { a with d := x }
  | _ => a

/-- One iteration of the `run_setup` sweep loop (`src/main.py` lines
134-141) at step number `increment`: read the swept field from the
current (already mutated) namespace, scale it by `(1 + s * increment)`,
record the label, write the new value back into the namespace, and store
the valuation produced from the mutated namespace.  `runner` abstracts
the `historical_DCF` call (it receives the eight argument values the
source passes from `args`; the source also passes a ninth positional
argument, `args.apikey`, which exceeds the parameter list of `historical_DCF`
— an arity defect of the glue code that is outside the sweep semantics
modelled here); `fmt` abstracts the label fragment `str(var)[0:4]`. -/
def sweepStep {R : Type} (runner : String → Nat → Nat → ℚ → ℚ → ℚ → ℚ → String → R)
    (fmt : ℚ → String) (varname : String)
    (st : List String × List (String × R) × Args) (increment : Nat) :
    Option (List String × List (String × R) × Args) := do
  let x ← getVar st.2.2 varname
  let var := x * (1 + st.2.2.s * increment)
  let step := st.2.2.v ++ ": " ++ fmt var
  let a := setVar st.2.2 varname var
  pure (st.1 ++ [step], assocSet st.2.1 step (runner a.t a.y a.p a.d a.eg a.cg a.pg a.i), a)

/-- `run_setup` from `src/main.py` lines 131-143.  Returns the `cond`
label list, the `dcfs` mapping, and — because the source mutates the
`args` object of the caller in place — the final state of that object, so the
frame effect is observable.  `none` = a `KeyError` reading the swept
variable. -/
def run_setup {R : Type} (runner : String → Nat → Nat → ℚ → ℚ → ℚ → ℚ → String → R)
    (fmt : ℚ → String) (args : Args) (varname : String) :
    Option (List String × List (String × R) × Args) :=
  (List.range args.steps).foldlM
    (fun st k => sweepStep runner fmt varname st (k + 1))
    ([], [], args)

/-! ## Claim theorems -/

/-- The year prefix of the statement date used by the concrete valuations
below: `int("2020-12-31"[0:4]) = 2020`. -/
lemma dateParse2020 : parsePythonInt ("2020-12-31".take 4) = some 2020 := by decide

/-- Claim C1.  The claim says every call with `discount_rate <=
perpetual_growth_rate` is explicitly guarded and fails.  The code has no
such guard: with `discount_rate = 0 < 1/2 = perpetual_growth_rate` the
valuation returns the numeric (sign-flipped) enterprise value `-200`
instead of failing; only exact equality fails, and that through the
unguarded `ZeroDivisionError` of the terminal-value division (the third
conjunct). -/
theorem claim_C1 :
    enterprise_value [⟨"2020-12-31", some 100, Option.none, some 0, some 1⟩]
        [⟨some 0, some 0⟩] [⟨some 0, some 0⟩, ⟨some 0, some 0⟩]
        1 0 (some 0) (some 0) (1/2) GrowthOverride.none
      = some (-200)
    ∧ (0 : ℚ) < 1/2
    ∧ enterprise_value [⟨"2020-12-31", some 100, Option.none, some 0, some 1⟩]
        [⟨some 0, some 0⟩] [⟨some 0, some 0⟩, ⟨some 0, some 0⟩]
        1 (1/2) (some 0) (some 0) (1/2) GrowthOverride.none
      = Option.none := by
  refine ⟨?_, by norm_num, ?_⟩ <;>
    norm_num [enterprise_value, baseInputs, selectEBIT, truthy, cwcOf,
      dateParse2020, prepare_growth_rates, forecastTrajectory, stepFlow, pvFlow,
      ulFCF, DCF_CONFIG, guard, Option.bind, List.head?]

/-- An injective stand-in for the label fragment `str(var)[0:4]` of
`run_setup`, at the three sweep values of the concrete example below.
(The real `str(var)[0:4]` truncates all three to the same `"0.05"`.) -/
def ratLabel (q : ℚ) : String :=
  if q = 101/2000 then "a" else if q = 5151/100000 then "b" else "c"

/-- A `historical_DCF` stand-in that records the `args.eg` value it is
called with, so the growth rate used by each sweep iteration is
observable in the result mapping. -/
def egProbe : String → Nat → Nat → ℚ → ℚ → ℚ → ℚ → String → ℚ :=
  fun _ _ _ _ eg _ _ _ => eg

/-- The argparse namespace of the sensitivity example of the
specification: `earnings_growth_rate = 0.05`, step `0.01`, 3 steps,
sweeping `eg`; all other fields at their parser defaults. -/
def argsC23 : Args :=
  { p := 5, t := "AAPL", y := 1, i := "annual", s := 1/100, steps := 3,
    v := "eg", d := 1/10, eg := 5/100, cg := 45/1000, pg := 5/100, apikey := "" }

/-- State after sweep iteration 1: `eg = 0.05 * 1.01 = 0.0505`. -/
def sweepSt1 : List String × List (String × ℚ) × Args :=
  (["eg: a"], [("eg: a", 101/2000)], { argsC23 with eg := 101/2000 })

/-- State after sweep iteration 2: `eg = 0.0505 * 1.02 = 0.05151` — the
iteration multiplies the value mutated by iteration 1, not the base. -/
def sweepSt2 : List String × List (String × ℚ) × Args :=
  (["eg: a", "eg: b"],
   [("eg: a", 101/2000), ("eg: b", 5151/100000)],
   { argsC23 with eg := 5151/100000 })

/-- State after sweep iteration 3: `eg = 0.05151 * 1.03 = 0.0530553`. -/
def sweepSt3 : List String × List (String × ℚ) × Args :=
  (["eg: a", "eg: b", "eg: c"],
   [("eg: a", 101/2000), ("eg: b", 5151/100000), ("eg: c", 530553/10000000)],
   { argsC23 with eg := 530553/10000000 })

lemma sweepStep_one :
    sweepStep egProbe ratLabel ("eg") ([], [], argsC23) 1 = some sweepSt1 := by
  norm_num [sweepStep, sweepSt1, getVar, setVar, egProbe, ratLabel, assocSet, argsC23]
  simp

lemma sweepStep_two :
    sweepStep egProbe ratLabel ("eg") sweepSt1 2 = some sweepSt2 := by
  norm_num [sweepStep, sweepSt1, sweepSt2, getVar, setVar, egProbe, ratLabel, assocSet, argsC23]
  simp

lemma sweepStep_three :
    sweepStep egProbe ratLabel ("eg") sweepSt2 3 = some sweepSt3 := by
  norm_num [sweepStep, sweepSt2, sweepSt3, getVar, setVar, egProbe, ratLabel, assocSet, argsC23]
  simp

/-- The full sweep of the concrete example, evaluated. -/
lemma run_setup_eval : run_setup egProbe ratLabel argsC23 ("eg") = some sweepSt3 := by
  have h3 : List.range argsC23.steps = [0, 1, 2] := rfl
  rw [run_setup, h3]
  simp [List.foldlM, sweepStep_one, sweepStep_two, sweepStep_three]

/-- Claim C2.  The claim says the sweep with base 0.05, step 0.01, 3
steps uses growth rates [0.0505, 0.051, 0.0515], i.e. multiples
`b * (1 + s*i)` of the original base.  The code re-reads the mutated
namespace each iteration, so the rates actually used are
[0.0505, 0.05151, 0.0530553] — each iteration multiplies the previously
compounded value — which differ from the claimed list. -/
theorem claim_C2 :
    (run_setup egProbe ratLabel argsC23 ("eg")).map (fun r => r.2.1.map Prod.snd)
      = some [101/2000, 5151/100000, 530553/10000000]
    ∧ ([(101 : ℚ)/2000, 5151/100000, 530553/10000000]
        ≠ [101/2000, 51/1000, 103/2000]) := by
  constructor
  · rw [run_setup_eval]
    simp [sweepSt3]
  · norm_num

/-- Claim C3.  The claim says the sweep leaves the caller-owned
parameter object unchanged.  The code writes every swept value through
`vars(args)[variable] = var`: after the example sweep the `eg` field of
the caller holds the final compounded value 0.0530553, not its original
0.05. -/
theorem claim_C3 :
    (run_setup egProbe ratLabel argsC23 ("eg")).map (fun r => r.2.2.eg)
      = some (530553/10000000)
    ∧ argsC23.eg = 5/100
    ∧ (530553 : ℚ)/10000000 ≠ 5/100 := by
  refine ⟨?_, rfl, by norm_num⟩
  rw [run_setup_eval]
  simp [sweepSt3, argsC23]

/-- Claim C7: the equity bridge of `equity_value` is exactly
`(EV - debt + cash, (EV - debt + cash) / shares)`, in both statement
formats, for every enterprise value and every record supplying debt,
cash and a nonzero share count. -/
theorem claim_C7 (ev d c s : ℚ) (hs : s ≠ 0) (rest : List EVRecord)
    (lt lc ls fd fc fs : Option ℚ) :
    equity_value ev (EVStatement.fmpList (⟨some d, some c, some s, lt, lc, ls⟩ :: rest))
      = some (ev - d + c, (ev - d + c) / s)
    ∧ equity_value ev (EVStatement.single ⟨fd, fc, fs, some d, some c, some s⟩)
      = some (ev - d + c, (ev - d + c) / s) := by
  constructor <;> simp [equity_value, guard, hs]

/-- Witness for C7 at `EV = 10`, `debt = 3`, `cash = 1`, `shares = 2`:
equity value 8 and share price 4. -/
theorem claim_C7_witness :
    (2 : ℚ) ≠ 0
    ∧ equity_value 10 (EVStatement.fmpList
        [⟨some 3, some 1, some 2, Option.none, Option.none, Option.none⟩])
      = some (8, 4) := by
  refine ⟨by norm_num, ?_⟩
  have h := (claim_C7 10 3 1 2 (by norm_num) [] Option.none Option.none
    Option.none Option.none Option.none Option.none).1
  rw [h]
  norm_num

/-- Cap-ex schedule and earnings schedule coincide under an override. -/
lemma pairMapFstSnd (o : Option (List ℚ)) :
    (o.map (fun g => (g, g))).map Prod.snd = (o.map (fun g => (g, g))).map Prod.fst := by
  cases o <;> rfl

/-- Claim C10: in override mode (dict or list) the `cap_ex_growth_rate`
argument of `enterprise_value` has no effect — two calls differing only
in it return the same value — because the capex schedule is taken
identical to the earnings schedule (last two conjuncts). -/
theorem claim_C10 (incs : List IncomeRecord) (cfs : List CashflowRecord)
    (bals : List BalanceRecord) (p : Nat) (dr : ℚ) (egr c1 c2 : Option ℚ) (pgr : ℚ)
    (byr : Int) (m : List (Int × ℚ)) (l : List ℚ) :
    enterprise_value incs cfs bals p dr egr c1 pgr (GrowthOverride.dict m)
      = enterprise_value incs cfs bals p dr egr c2 pgr (GrowthOverride.dict m)
    ∧ enterprise_value incs cfs bals p dr egr c1 pgr (GrowthOverride.list l)
      = enterprise_value incs cfs bals p dr egr c2 pgr (GrowthOverride.list l)
    ∧ (prepare_growth_rates byr p egr c1 (GrowthOverride.dict m)).map Prod.snd
      = (prepare_growth_rates byr p egr c1 (GrowthOverride.dict m)).map Prod.fst
    ∧ (prepare_growth_rates byr p egr c1 (GrowthOverride.list l)).map Prod.snd
      = (prepare_growth_rates byr p egr c1 (GrowthOverride.list l)).map Prod.fst := by
  refine ⟨rfl, rfl, ?_, ?_⟩
  · exact pairMapFstSnd
      (dictRates m egr ((List.range p).map (fun i : Nat => byr + (i : Int) + 1)))
  · by_cases h : l.length < p <;> cases egr <;> simp [prepare_growth_rates, h]

/-- A resolved dict-override schedule has one rate per requested year. -/
lemma dictRates_length (m : List (Int × ℚ)) (f : Option ℚ) :
    ∀ (ys : List Int) (g : List ℚ), dictRates m f ys = some g → g.length = ys.length := by
  intro ys
  induction ys with
  | nil =>
      intro g h
      simp only [dictRates] at h
      cases h
      rfl
  | cons y ys ih =>
      intro g h
      rw [dictRates] at h
      cases hg : (m.lookup y).orElse (fun _ => f) with
      | none => rw [hg] at h; cases h
      | some a =>
          rw [hg] at h
          cases hr : dictRates m f ys with
          | none => rw [hr] at h; cases h
          | some rest =>
              rw [hr] at h
              cases h
              simp [ih rest hr]

/-- Claim C5: every successfully prepared growth-rate pair (constant
fallback, year dict with fallback, explicit list padded or truncated)
has length exactly the forecast horizon, for both the earnings and the
capex schedule; and the trend-derived schedule of
`_create_variable_growth_schedule` has length exactly `forecast_years`. -/
theorem claim_C5 :
    (∀ (byr : Int) (period : Nat) (egr cgr : Option ℚ) (ov : GrowthOverride)
        (g c : List ℚ),
        prepare_growth_rates byr period egr cgr ov = some (g, c) →
        g.length = period ∧ c.length = period)
    ∧ (∀ (trends : Trends) (fy : Nat),
        (_create_variable_growth_schedule trends fy).length = fy) := by
  constructor
  · intro byr period egr cgr ov g c h
    cases ov with
    | none =>
        simp only [prepare_growth_rates] at h
        cases h
        simp
    | dict m =>
        simp only [prepare_growth_rates] at h
        cases hd : dictRates m egr ((List.range period).map
            (fun i : Nat => byr + (i : Int) + 1)) with
        | none => rw [hd] at h; cases h
        | some gl =>
            rw [hd] at h
            have hlen : gl.length = period := by
              have hx := dictRates_length m egr _ gl hd
              simpa using hx
            cases h
            exact ⟨hlen, hlen⟩
    | list l =>
        simp only [prepare_growth_rates] at h
        by_cases hl : l.length < period
        · rw [if_pos hl] at h
          cases egr with
          | none => cases h
          | some e =>
              cases h
              constructor <;> · simp; omega
        · rw [if_neg hl] at h
          cases h
          constructor <;> · simp; omega
  · intro trends fy
    simp [_create_variable_growth_schedule]

/-- Witness for C5: a one-element list override for horizon 3 is padded
with the fallback rate to the 3-element schedule `[0.1, 0.05, 0.05]`. -/
theorem claim_C5_witness :
    prepare_growth_rates 2024 3 (some (5/100)) Option.none (GrowthOverride.list [1/10])
      = some ([1/10, 5/100, 5/100], [1/10, 5/100, 5/100])
    ∧ ([(1 : ℚ)/10, 5/100, 5/100].length = 3 ∧ [(1 : ℚ)/10, 5/100, 5/100].length = 3) :=
  ⟨rfl, claim_C5.1 2024 3 (some (5/100)) Option.none (GrowthOverride.list [1/10]) _ _ rfl⟩

/-- EBIT in the forecast trajectory compounds by the constant rate. -/
lemma forecastTrajectory_replicate_ebit :
    ∀ (h : Nat) (s : FlowState) (g gc : ℚ) (i : Nat), i < h →
      ((forecastTrajectory s (List.replicate h (g, gc)))[i]?).map FlowState.ebit
        = some (s.ebit * (1 + g) ^ (i + 1)) := by
  intro h
  induction h with
  | zero => intro s g gc i hi; omega
  | succ n ih =>
      intro s g gc i hi
      rw [List.replicate_succ]
      simp only [forecastTrajectory]
      cases i with
      | zero => simp [stepFlow]
      | succ k =>
          have hk : k < n := by omega
          simp only [List.getElem?_cons_succ]
          rw [ih (stepFlow g gc s) g gc k hk]
          have hs : (stepFlow g gc s).ebit * (1 + g) ^ (k + 1)
              = s.ebit * (1 + g) ^ (k + 1 + 1) := by
            simp only [stepFlow]
            ring
          rw [hs]

/-- Claim C8: under the constant growth schedule `g` of length `h >= 1`
used by `enterprise_value`, the forecast EBIT of year `h` (the last
entry of the trajectory, index `h - 1`) is exactly
`base_ebit * (1 + g) ^ h`. -/
theorem claim_C8 (b ncc cwc capex g gc : ℚ) (h : Nat) (hh : 1 ≤ h) :
    ((forecastTrajectory ⟨b, ncc, cwc, capex⟩ (List.replicate h (g, gc)))[h - 1]?).map
        FlowState.ebit
      = some (b * (1 + g) ^ h) := by
  have hx := forecastTrajectory_replicate_ebit h ⟨b, ncc, cwc, capex⟩ g gc (h - 1) (by omega)
  rw [Nat.sub_add_cancel hh] at hx
  exact hx

/-- Witness for C8 at base EBIT 100, growth 5%, horizon 2. -/
theorem claim_C8_witness :
    1 ≤ 2
    ∧ ((forecastTrajectory ⟨100, 10, 5, -8⟩
          (List.replicate 2 (5/100, 45/1000)))[2 - 1]?).map FlowState.ebit
      = some (100 * (1 + 5/100) ^ 2) :=
  ⟨by norm_num, claim_C8 100 10 5 (-8) (5/100) (45/1000) 2 (by norm_num)⟩

/-- Claim C9: `get_discount_rate` returns the CAPM cost of equity when
`debt_to_equity` or `tax_rate` is absent, and otherwise — whenever the
capital structure is non-degenerate, `1 + D/E` nonzero — the WACC
`(1/(1+D/E)) * cost_of_equity + (D/E/(1+D/E)) * (risk_free +
min(0.05, D/E*0.02)) * (1 - clamp(tax))` with the tax rate clamped to
the configured floor/ceiling.  At `D/E = -1` the source raises
`ZeroDivisionError` computing `1 / total_value`, so no WACC is returned
there (third conjunct). -/
theorem claim_C9 (eb : Option ℚ) (ind : Option String) (de t : Option ℚ) :
    ((de = Option.none ∨ t = Option.none) →
      get_discount_rate eb de t ind
        = some (DCF_CONFIG.risk_free_rate + resolveBeta eb ind * DCF_CONFIG.market_premium))
    ∧ (∀ dval tval, de = some dval → t = some tval → 1 + dval ≠ 0 →
        get_discount_rate eb de t ind
          = some ((1 / (1 + dval))
              * (DCF_CONFIG.risk_free_rate + resolveBeta eb ind * DCF_CONFIG.market_premium)
            + (dval / (1 + dval))
              * (DCF_CONFIG.risk_free_rate + min (5/100) (dval * (2/100)))
              * (1 - max DCF_CONFIG.tax_rate_floor (min tval DCF_CONFIG.tax_rate_ceiling))))
    ∧ (∀ dval tval, de = some dval → t = some tval → 1 + dval = 0 →
        get_discount_rate eb de t ind = Option.none) := by
  refine ⟨?_, ?_, ?_⟩
  · rintro (rfl | rfl)
    · cases t <;> rfl
    · cases de <;> rfl
  · rintro dval tval rfl rfl hz
    simp only [get_discount_rate]
    rw [if_neg hz]
  · rintro dval tval rfl rfl hz
    simp only [get_discount_rate]
    rw [if_pos hz]

/-- Witness for C9 at beta 1.2, `D/E = 1` (so `1 + D/E = 2` is nonzero),
tax rate 25%. -/
theorem claim_C9_witness :
    get_discount_rate (some (12/10)) (some 1) (some (1/4)) Option.none
      = some ((1 / (1 + 1))
          * (DCF_CONFIG.risk_free_rate
            + resolveBeta (some (12/10)) Option.none * DCF_CONFIG.market_premium)
        + (1 / (1 + 1))
          * (DCF_CONFIG.risk_free_rate + min (5/100) (1 * (2/100)))
          * (1 - max DCF_CONFIG.tax_rate_floor (min (1/4) DCF_CONFIG.tax_rate_ceiling))) :=
  (claim_C9 (some (12/10)) Option.none (some 1) (some (1/4))).2.1 1 (1/4) rfl rfl
    (by norm_num)

/-- One unfolding of the Newton-Raphson iteration. -/
lemma newtonLoop_succ (cfs : List ℚ) (fuel : Nat) (rate : ℚ) :
    newtonLoop cfs (fuel + 1) rate =
      (let npv_value := npv_at cfs rate
       let npv_deriv := npv_deriv_at cfs rate
       if |npv_value| < 1 / 1000000 then rate
       else if |npv_deriv| < 1 / 1000000000000 then rate
       else
         let new_rate := max (-(99/100)) (min (rate - npv_value / npv_deriv) 5)
         if |new_rate - rate| < 1 / 1000000 then rate
         else newtonLoop cfs fuel new_rate) := rfl

lemma npv1 : npv_at [-1, 100] (1/10) = 989/11 := by
  norm_num [npv_at, List.enum, List.enumFrom]

lemma npvd1 : npv_deriv_at [-1, 100] (1/10) = -(10000/121) := by
  norm_num [npv_deriv_at, List.enum, List.enumFrom]

lemma newton_step1 :
    newtonLoop [-1, 100] (99 + 1) (1/10) = newtonLoop [-1, 100] 99 (11879/10000) := by
  rw [newtonLoop_succ]
  simp only [npv1, npvd1]
  rw [if_neg (by rw [abs_of_nonneg (by norm_num : (0:ℚ) ≤ 989/11)]; norm_num)]
  rw [if_neg (by rw [abs_of_nonpos (by norm_num : (-(10000/121) : ℚ) ≤ 0)]; norm_num)]
  rw [show ((1:ℚ)/10 - (989/11)/(-(10000/121))) = 11879/10000 by norm_num]
  rw [min_eq_left (by norm_num : (11879:ℚ)/10000 ≤ 5)]
  rw [max_eq_right (by norm_num : (-(99/100) : ℚ) ≤ 11879/10000)]
  rw [if_neg (by
    rw [show ((11879 : ℚ)/10000 - 1/10) = 10879/10000 by norm_num]
    rw [abs_of_nonneg (by norm_num : (0:ℚ) ≤ 10879/10000)]
    norm_num)]

lemma npv2 : npv_at [-1, 100] (11879/10000) = 978121/21879 := by
  norm_num [npv_at, List.enum, List.enumFrom]

lemma npvd2 : npv_deriv_at [-1, 100] (11879/10000) = -(10000000000/478690641) := by
  norm_num [npv_deriv_at, List.enum, List.enumFrom]

lemma newton_step2 :
    newtonLoop [-1, 100] (98 + 1) (11879/10000)
      = newtonLoop [-1, 100] 98 (33279309359/10000000000) := by
  rw [newtonLoop_succ]
  simp only [npv2, npvd2]
  rw [if_neg (by rw [abs_of_nonneg (by norm_num : (0:ℚ) ≤ 978121/21879)]; norm_num)]
  rw [if_neg (by
    rw [abs_of_nonpos (by norm_num : (-(10000000000/478690641) : ℚ) ≤ 0)]
    norm_num)]
  rw [show ((11879:ℚ)/10000 - (978121/21879)/(-(10000000000/478690641)))
      = 33279309359/10000000000 by norm_num]
  rw [min_eq_left (by norm_num : (33279309359:ℚ)/10000000000 ≤ 5)]
  rw [max_eq_right (by norm_num : (-(99/100) : ℚ) ≤ 33279309359/10000000000)]
  rw [if_neg (by
    rw [show ((33279309359 : ℚ)/10000000000 - 11879/10000)
        = 21400309359/10000000000 by norm_num]
    rw [abs_of_nonneg (by norm_num : (0:ℚ) ≤ 21400309359/10000000000)]
    norm_num)]

lemma npv3 : npv_at [-1, 100] (33279309359/10000000000) = 956720690641/43279309359 := by
  norm_num [npv_at, List.enum, List.enumFrom]

lemma npvd3 : npv_deriv_at [-1, 100] (33279309359/10000000000)
    = -(10000000000000000000000/1873098618592024990881) := by
  norm_num [npv_deriv_at, List.enum, List.enumFrom]

lemma newton_step3 :
    newtonLoop [-1, 100] (97 + 1) (33279309359/10000000000)
      = newtonLoop [-1, 100] 97 5 := by
  rw [newtonLoop_succ]
  simp only [npv3, npvd3]
  rw [if_neg (by
    rw [abs_of_nonneg (by norm_num : (0:ℚ) ≤ 956720690641/43279309359)]
    norm_num)]
  rw [if_neg (by
    rw [abs_of_nonpos
      (by norm_num : (-(10000000000000000000000/1873098618592024990881) : ℚ) ≤ 0)]
    norm_num)]
  rw [show ((33279309359:ℚ)/10000000000
        - (956720690641/43279309359)/(-(10000000000000000000000/1873098618592024990881)))
      = 74685520099407975009119/10000000000000000000000 by norm_num]
  rw [min_eq_right
    (by norm_num : (5:ℚ) ≤ 74685520099407975009119/10000000000000000000000)]
  rw [max_eq_right (by norm_num : (-(99/100) : ℚ) ≤ 5)]
  rw [if_neg (by
    rw [show ((5 : ℚ) - 33279309359/10000000000) = 16720690641/10000000000 by norm_num]
    rw [abs_of_nonneg (by norm_num : (0:ℚ) ≤ 16720690641/10000000000)]
    norm_num)]

lemma npv4 : npv_at [-1, 100] 5 = 47/3 := by
  norm_num [npv_at, List.enum, List.enumFrom]

lemma npvd4 : npv_deriv_at [-1, 100] 5 = -(25/9) := by
  norm_num [npv_deriv_at, List.enum, List.enumFrom]

lemma newton_step4 : newtonLoop [-1, 100] (96 + 1) 5 = 5 := by
  rw [newtonLoop_succ]
  simp only [npv4, npvd4]
  rw [if_neg (by rw [abs_of_nonneg (by norm_num : (0:ℚ) ≤ 47/3)]; norm_num)]
  rw [if_neg (by rw [abs_of_nonpos (by norm_num : (-(25/9) : ℚ) ≤ 0)]; norm_num)]
  rw [show ((5:ℚ) - (47/3)/(-(25/9))) = 266/25 by norm_num]
  rw [min_eq_right (by norm_num : (5:ℚ) ≤ 266/25)]
  rw [max_eq_right (by norm_num : (-(99/100) : ℚ) ≤ 5)]
  rw [if_pos (by norm_num)]

/-- The Newton iteration on the stream `[-1, 100]` (investment 1, one
cash flow 100) terminates at the clamp ceiling 5 = 500%, well outside
the acceptance band [-50%, 200%]. -/
lemma newton_eval : newtonLoop [-1, 100] 100 (1/10) = 5 := by
  calc newtonLoop [-1, 100] 100 (1/10)
      = newtonLoop [-1, 100] 99 (11879/10000) := newton_step1
    _ = newtonLoop [-1, 100] 98 (33279309359/10000000000) := newton_step2
    _ = newtonLoop [-1, 100] 97 5 := newton_step3
    _ = 5 := newton_step4

/-- On that stream `calculate_irr` returns 0, the fallback literal of
line 837, not any discount rate. -/
lemma calculate_irr_eval : calculate_irr 1 [100] 0 = some 0 := by
  rw [calculate_irr]
  norm_num [List.getLast?, List.dropLast, newton_eval]

/-- Claim C4 (amended).  The claim says a non-converged IRR falls back
to the discount rate.  `calculate_irr` has no access to any discount
rate: the amended statement is that a returned rate is either within the
acceptance band [-50%, 200%] or the literal fallback 0 (first part), and
that whenever the Newton iterate lands inside the band it is returned
as-is (second part).  The discount-rate fallback lives only in the
caller `enhanced_DCF_with_trends`, and only for raised exceptions. -/
theorem claim_C4 :
    (∀ (inv : ℚ) (cfs : List ℚ) (tv r : ℚ),
        calculate_irr inv cfs tv = some r → ((-(1/2) ≤ r ∧ r ≤ 2) ∨ r = 0))
    ∧ (∀ (inv : ℚ) (cfs : List ℚ) (tv lastCf : ℚ), 0 < inv →
        cfs.getLast? = some lastCf →
        (-(1/2) ≤ newtonLoop (-inv :: (cfs.dropLast ++ [lastCf + tv])) 100 (1/10)
          ∧ newtonLoop (-inv :: (cfs.dropLast ++ [lastCf + tv])) 100 (1/10) ≤ 2) →
        calculate_irr inv cfs tv
          = some (newtonLoop (-inv :: (cfs.dropLast ++ [lastCf + tv])) 100 (1/10))) := by
  constructor
  · intro inv cfs tv r h
    rw [calculate_irr] at h
    by_cases hi : inv ≤ 0
    · rw [if_pos hi] at h
      cases h
      exact Or.inr rfl
    · rw [if_neg hi] at h
      cases hl : cfs.getLast? with
      | none => rw [hl] at h; simp at h
      | some lastCf =>
          rw [hl] at h
          simp only [Option.bind_eq_bind, Option.some_bind, Option.pure_def] at h
          split_ifs at h with hb
          · cases h
            exact Or.inl hb
          · cases h
            exact Or.inr rfl
  · intro inv cfs tv lastCf hpos hl hb
    rw [calculate_irr]
    rw [if_neg (not_le.mpr hpos)]
    rw [hl]
    simp only [Option.bind_eq_bind, Option.some_bind, Option.pure_def]
    rw [if_pos hb]

/-- Counterexample to C4 as stated: with investment 1 and single cash
flow 100 the Newton iterate terminates at 5 (outside [-50%, 200%]) and
`calculate_irr` returns 0 — which is not the configured default discount
rate (0.10), and the function receives no discount rate at all. -/
theorem claim_C4_counterexample :
    calculate_irr 1 [100] 0 = some 0
    ∧ newtonLoop [-1, 100] 100 (1/10) = 5
    ∧ ¬ ((-(1/2) : ℚ) ≤ 5 ∧ (5 : ℚ) ≤ 2)
    ∧ (0 : ℚ) ≠ DCF_CONFIG.default_discount_rate := by
  refine ⟨calculate_irr_eval, newton_eval, by norm_num, by norm_num [DCF_CONFIG]⟩

/-- Witness for the amended C4 at the concrete non-convergent input. -/
theorem claim_C4_witness :
    calculate_irr 1 [100] 0 = some 0
    ∧ (((-(1/2) : ℚ) ≤ 0 ∧ (0 : ℚ) ≤ 2) ∨ (0 : ℚ) = 0) :=
  ⟨calculate_irr_eval, claim_C4.1 1 [100] 0 0 calculate_irr_eval⟩

lemma length_filterMap_eq_countP {α β : Type} (g : α → Option β) :
    ∀ l : List α, (l.filterMap g).length = l.countP (fun a => (g a).isSome) := by
  intro l
  induction l with
  | nil => rfl
  | cons a tl ih =>
      cases hg : g a with
      | none => simp [List.filterMap_cons, hg, List.countP_cons, ih]
      | some b => simp [List.filterMap_cons, hg, List.countP_cons, ih]

lemma countP_range_ne (j n : Nat) (hj : j < n) :
    (List.range n).countP (fun i => i != j) = n - 1 := by
  induction n with
  | zero => omega
  | succ m ih =>
      rw [List.range_succ, List.countP_append]
      by_cases hjm : j = m
      · subst hjm
        have hall : (List.range j).countP (fun i => i != j) = (List.range j).length := by
          rw [List.countP_eq_length]
          intro a ha
          have halt : a < j := List.mem_range.mp ha
          simp [Nat.ne_of_lt halt]
        rw [hall]
        simp
      · have hjm2 : j < m := by omega
        rw [ih hjm2]
        have hone : [m].countP (fun i => i != j) = 1 := by
          simp [List.countP_cons]
          omega
        rw [hone]
        omega

/-- The window loop of `historical_DCF` with Python-dict insertion equals
a `filterMap` over the window indices whenever the successful dates are
distinct: each success appends its entry, each failure is skipped. -/
lemma foldl_assocSet_eq_filterMap (f : Nat → Option DCFResult) :
    ∀ (l : List Nat) (acc : List (String × DCFResult)),
      ((acc.map Prod.fst)
        ++ l.filterMap (fun i => (f i).map (fun r => r.date))).Nodup →
      l.foldl (fun d i => match f i with
          | Option.none => d
          | some r => assocSet d r.date r) acc
        = acc ++ l.filterMap (fun i => (f i).map (fun r => (r.date, r))) := by
  intro l
  induction l with
  | nil => intro acc h; simp
  | cons i tl ih =>
      intro acc h
      cases hf : f i with
      | none =>
          simp only [List.foldl_cons, hf]
          rw [ih acc (by simpa [List.filterMap_cons, hf] using h)]
          simp [List.filterMap_cons, hf]
      | some r =>
          simp only [List.foldl_cons, hf]
          have hdisj : r.date ∉ acc.map Prod.fst := by
            have hd := List.disjoint_of_nodup_append h
            intro hmem
            exact hd hmem (by simp [List.filterMap_cons, hf])
          have hkey : ¬ (acc.any (fun p => p.1 == r.date) = true) := by
            intro hany
            rcases List.any_eq_true.mp hany with ⟨p, hp, hpk⟩
            exact hdisj (List.mem_map.mpr ⟨p, hp, by
              have hpe := beq_iff_eq.mp hpk
              exact hpe⟩)
          have hset : assocSet acc r.date r = acc ++ [(r.date, r)] := by
            rw [assocSet, if_neg hkey]
          rw [hset]
          have h2 : (((acc ++ [(r.date, r)]).map Prod.fst)
              ++ tl.filterMap (fun i => (f i).map (fun r => r.date))).Nodup := by
            rw [List.map_append]
            have hx : (acc.map Prod.fst
                ++ ([(r.date, r)].map Prod.fst
                  ++ tl.filterMap (fun i => (f i).map (fun r => r.date))))
                = (acc.map Prod.fst)
                  ++ (i :: tl).filterMap (fun i => (f i).map (fun r => r.date)) := by
              simp [List.filterMap_cons, hf]
            rw [List.append_assoc, hx]
            exact h
          rw [ih (acc ++ [(r.date, r)]) h2]
          simp [List.filterMap_cons, hf]

/-- Claim C6: an annual historical run over `n` windows in which exactly
the window `j` fails (every other window succeeds, with pairwise
distinct statement dates) produces the mapping of exactly the `n - 1`
successful windows, in order, with no entry for window `j`; no exception
escapes — `historical_DCF` is a total function. -/
theorem claim_C6 (n j : Nat) (dr : ℚ) (forecast : Nat) (egr cgr : Option ℚ) (pgr : ℚ)
    (incs : List IncomeRecord) (bals : List BalanceRecord) (cfs : List CashflowRecord)
    (evs : List EVRecord)
    (hj : j < n)
    (hfail : windowResult dr forecast egr cgr pgr incs bals cfs evs j = Option.none)
    (hsucc : ∀ i, i < n → i ≠ j →
      (windowResult dr forecast egr cgr pgr incs bals cfs evs i).isSome = true)
    (hdates : ((List.range n).filterMap
        (fun i => (windowResult dr forecast egr cgr pgr incs bals cfs evs i).map
          (fun r => r.date))).Nodup) :
    historical_DCF n forecast dr egr cgr pgr "annual" incs bals cfs evs
      = (List.range n).filterMap
          (fun i => (windowResult dr forecast egr cgr pgr incs bals cfs evs i).map
            (fun r => (r.date, r)))
    ∧ (historical_DCF n forecast dr egr cgr pgr "annual" incs bals cfs evs).length
        = n - 1 := by
  have hinterval : (if ("annual" : String) = "quarter" then n * 4 else n) = n := by
    rw [if_neg (by decide)]
  have heq : historical_DCF n forecast dr egr cgr pgr "annual" incs bals cfs evs
      = (List.range n).filterMap
          (fun i => (windowResult dr forecast egr cgr pgr incs bals cfs evs i).map
            (fun r => (r.date, r))) := by
    rw [historical_DCF]
    rw [hinterval]
    exact foldl_assocSet_eq_filterMap
      (windowResult dr forecast egr cgr pgr incs bals cfs evs)
      (List.range n) [] (by simpa using hdates)
  refine ⟨heq, ?_⟩
  rw [heq]
  rw [length_filterMap_eq_countP]
  have hcong : (List.range n).countP
      (fun i => ((windowResult dr forecast egr cgr pgr incs bals cfs evs i).map
        (fun r => (r.date, r))).isSome)
      = (List.range n).countP (fun i => i != j) := by
    apply List.countP_congr
    intro i hi
    have hilt : i < n := List.mem_range.mp hi
    by_cases hij : i = j
    · subst hij
      simp [hfail]
    · simp [Option.isSome_map', hsucc i hilt hij, hij]
  rw [hcong]
  exact countP_range_ne j n hj

/-- Concrete 2-window historical series for the C6 witness: window 1 is
missing the required `depreciationAndAmortization` field. -/
def wInc0 : IncomeRecord := ⟨"2021-12-31", some 100, Option.none, some 0, some 1⟩

def wInc1 : IncomeRecord := ⟨"2020-12-31", some 90, Option.none, some 0, some 1⟩

def wBal : BalanceRecord := ⟨some 0, some 0⟩

def wCf0 : CashflowRecord := ⟨some 0, some 0⟩

def wCf1 : CashflowRecord := ⟨Option.none, some 0⟩

def wEv0 : EVRecord := ⟨Option.none, Option.none, Option.none, some 20, some 5, some 10⟩

def wEv1 : EVRecord := ⟨Option.none, Option.none, Option.none, some 18, some 4, some 10⟩

def wIncs : List IncomeRecord := [wInc0, wInc1]

def wBals : List BalanceRecord := [wBal, wBal, wBal]

def wCfs : List CashflowRecord := [wCf0, wCf1]

def wEvs : List EVRecord := [wEv0, wEv1]

lemma dateParse2021 : parsePythonInt ("2021-12-31".take 4) = some 2021 := by decide

/-- Window 0 of the witness series succeeds. -/
lemma wRes0 : windowResult 0 1 (some 0) (some 0) (-(1/2)) wIncs wBals wCfs wEvs 0
    = some ⟨"2021-12-31", 200, 185, 37/2⟩ := by
  norm_num [windowResult, DCF, enterprise_value, equity_value, baseInputs, selectEBIT,
    truthy, cwcOf, dateParse2021, prepare_growth_rates, forecastTrajectory, stepFlow,
    pvFlow, ulFCF, DCF_CONFIG, guard, wIncs, wBals, wCfs, wEvs, wInc0, wInc1, wBal,
    wCf0, wCf1, wEv0, wEv1, List.head?]

/-- Window 1 of the witness series fails on the missing D&A field. -/
lemma wRes1 : windowResult 0 1 (some 0) (some 0) (-(1/2)) wIncs wBals wCfs wEvs 1
    = Option.none := by
  norm_num [windowResult, DCF, enterprise_value, equity_value, baseInputs, selectEBIT,
    truthy, cwcOf, prepare_growth_rates, forecastTrajectory, stepFlow,
    pvFlow, ulFCF, DCF_CONFIG, guard, wIncs, wBals, wCfs, wEvs, wInc0, wInc1, wBal,
    wCf0, wCf1, wEv0, wEv1, List.head?]

/-- Witness for C6: 2 windows, window 1 fails, `historical_DCF` returns
the single-entry mapping of window 0. -/
theorem claim_C6_witness :
    historical_DCF 2 1 0 (some 0) (some 0) (-(1/2)) "annual" wIncs wBals wCfs wEvs
      = (List.range 2).filterMap
          (fun i => (windowResult 0 1 (some 0) (some 0) (-(1/2)) wIncs wBals wCfs wEvs i).map
            (fun r => (r.date, r)))
    ∧ (historical_DCF 2 1 0 (some 0) (some 0) (-(1/2)) "annual" wIncs wBals wCfs wEvs).length
        = 2 - 1 :=
  claim_C6 2 1 0 1 (some 0) (some 0) (-(1/2)) wIncs wBals wCfs wEvs (by omega) wRes1
    (by
      intro i hi hij
      have hz : i = 0 := by omega
      subst hz
      rw [wRes0]
      rfl)
    (by
      have h2 : List.range 2 = [0, 1] := rfl
      rw [h2]
      simp only [wRes0, wRes1, List.filterMap_cons, List.filterMap_nil,
        Option.map_some', Option.map_none']
      decide)
